import Mathlib

/-! # Verification of `structureupgradestatus`

A shallow embedding of `src/structureupgradestatus.go` and theorems about it.

Modelling conventions.

* A Go `error` interface value is `Error := Option GoError`; `none` is `nil`.
* `int32` revisions are embedded in `Int`; the code never does arithmetic on
  them, it only passes them to the upgrader and to the log call.
* `*log.Logger` is a handle (`Option Logger`, `none` is the nil pointer).  What
  `Logger.Printf` writes is kept, unrendered, in `State.output`.
* Step functions (`StructureUpgrader`, `fnRef`) are total Lean functions; every
  invocation the code makes is appended to `State.trace`, so "the step function
  is not invoked" is a statement about that trace.
-/

namespace structureupgradestatus

/-- A non-nil Go error value, identified by its message. -/
structure GoError where
  msg : String
deriving DecidableEq, Repr

/-- The Go `error` interface: `none` is the nil error. -/
abbrev Error := Option GoError

/-- The target of a `*log.Logger` pointer. -/
structure Logger where
  id : Nat
deriving DecidableEq, Repr

/-- One variadic argument handed to `Logger.Printf`. -/
inductive Arg where
  | str (s : String)
  | int (n : Int)
  | err (e : GoError)
deriving DecidableEq, Repr

/-- One `Logger.Printf` invocation: the format string and its arguments. -/
structure LogRecord where
  format : String
  v : List Arg
deriving DecidableEq, Repr

/-- One invocation of a caller-supplied step function. -/
inductive Invocation where
  | upgrader (existedRev : Int)
  | fnRef
deriving DecidableEq, Repr

/-- Source: `type StructureUpgrader func(existedRev int32) (structureChanged bool, err error)`. -/
abbrev StructureUpgrader := Int → Bool × Error

/-- Source: `type StructureUpgradeStatus struct`, fields `Changed bool`, `LastError error`,
`Logger *log.Logger`. -/
structure StructureUpgradeStatus where
  Changed : Bool
  LastError : Error
  Logger : Option Logger
deriving DecidableEq, Repr

/-- The tracker together with the two effects the code has outside of it:
what was written through the logger and which step functions were invoked
(both oldest first). -/
structure State where
  st : StructureUpgradeStatus
  output : List LogRecord
  trace : List Invocation
deriving DecidableEq, Repr

/-- Source: `func (st *StructureUpgradeStatus) logF(format string, v ...interface)`: nothing
happens when `Logger` is nil, otherwise `Logger.Printf(format, v...)`. -/
def logF (s : State) (format : String) (v : List Arg) : State :=
  match s.st.Logger with
  | none => s
  | some _ => { s with output := s.output ++ [{ format := format, v := v }] }

/-- Source: `func (st *StructureUpgradeStatus) RunUpgrade(structureName, upgrader, existedRev)
(structureChanged bool, err error)` -/
def RunUpgrade (s : State) (structureName : String) (upgrader : StructureUpgrader)
    (existedRev : Int) : (Bool × Error) × State :=
  match s.st.LastError with
  | some e => ((false, some e), s)
  | none =>
    let s1 : State := { s with trace := s.trace ++ [Invocation.upgrader existedRev] }
    let r := upgrader existedRev
    let structureChanged := r.1
    let err := r.2
    let s2 : State :=
      match err with
      | some e =>
        logF { s1 with st := { s1.st with LastError := some e } }
          "ERR: cannot upgrade [%s] from [%d]: %v"
          [Arg.str structureName, Arg.int existedRev, Arg.err e]
      | none => s1
    let s3 : State :=
      if structureChanged then { s2 with st := { s2.st with Changed := true } } else s2
    ((structureChanged, err), s3)

/-- Source: `func (st *StructureUpgradeStatus) Call(structureName, fnRef, existedRev)
(shouldStop, structureChanged bool, err error)` -/
def Call (s : State) (structureName : String) (fnRef : Unit → Bool × Error)
    (existedRev : Int) : (Bool × Bool × Error) × State :=
  match s.st.LastError with
  | some e => ((true, false, some e), s)
  | none =>
    let s1 : State := { s with trace := s.trace ++ [Invocation.fnRef] }
    let r := fnRef ()
    let structureChanged := r.1
    let err := r.2
    let shouldStop : Bool := false
    let p : Bool × State :=
      match err with
      | some e =>
        (true,
          logF { s1 with st := { s1.st with LastError := some e } }
            "ERR: cannot upgrade [%s] from [%d]: %v"
            [Arg.str structureName, Arg.int existedRev, Arg.err e])
      | none => (shouldStop, s1)
    let s3 : State :=
      if structureChanged then { p.2 with st := { p.2.st with Changed := true } } else p.2
    ((p.1, structureChanged, err), s3)

/-- Source: `func (st *StructureUpgradeStatus) PushUpgradeResult(structureName string,
structureChanged bool, err error)` -/
def PushUpgradeResult (s : State) (structureName : String) (structureChanged : Bool)
    (err : Error) : State :=
  match s.st.LastError with
  | some _ => s
  | none =>
    let s2 : State :=
      match err with
      | some e =>
        logF { s with st := { s.st with LastError := some e } }
          "ERR: cannot upgrade [%s]: %v"
          [Arg.str structureName, Arg.err e]
      | none => s
    if structureChanged then { s2 with st := { s2.st with Changed := true } } else s2

/-- A tracker as its caller creates it: not changed, no error, with the given logger. -/
def fresh (logger : Option Logger) : State :=
  { st := { Changed := false, LastError := none, Logger := logger }, output := [], trace := [] }

/-- One method call on the tracker, with its arguments. -/
inductive Op where
  | runUpgrade (structureName : String) (upgrader : StructureUpgrader) (existedRev : Int)
  | call (structureName : String) (fnRef : Unit → Bool × Error) (existedRev : Int)
  | pushUpgradeResult (structureName : String) (structureChanged : Bool) (err : Error)

/-- What one method call handed back to its caller. -/
inductive Ret where
  | runUpgrade (structureChanged : Bool) (err : Error)
  | call (shouldStop : Bool) (structureChanged : Bool) (err : Error)
  | pushUpgradeResult
deriving DecidableEq, Repr

/-- The `err` result of a call, for the two methods that have one. -/
def Ret.err? : Ret → Option Error
  | Ret.runUpgrade _ e => some e
  | Ret.call _ _ e => some e
  | Ret.pushUpgradeResult => none

/-- The error produced by the step a call carries: what its step function returns,
or the error handed to `PushUpgradeResult`. -/
def Op.stepErr : Op → Error
  | Op.runUpgrade _ u r => (u r).2
  | Op.call _ f _ => (f ()).2
  | Op.pushUpgradeResult _ _ e => e

/-- Perform one method call. -/
def Op.exec (s : State) : Op → Ret × State
  | Op.runUpgrade n u r =>
    let x := RunUpgrade s n u r
    (Ret.runUpgrade x.1.1 x.1.2, x.2)
  | Op.call n f r =>
    let x := Call s n f r
    (Ret.call x.1.1 x.1.2.1 x.1.2.2, x.2)
  | Op.pushUpgradeResult n c e => (Ret.pushUpgradeResult, PushUpgradeResult s n c e)

/-- Perform a sequence of method calls, first to last, collecting what each returned. -/
def run (s : State) : List Op → List Ret × State
  | [] => ([], s)
  | op :: ops =>
    let x := op.exec s
    let y := run x.2 ops
    (x.1 :: y.1, y.2)

/-- The state after a sequence of method calls. -/
def runState (s : State) (ops : List Op) : State := (run s ops).2

/-- The values returned by a sequence of method calls. -/
def runRets (s : State) (ops : List Op) : List Ret := (run s ops).1

/-! ## Scenario data -/

/-- A sample error. -/
def someErr : GoError := { msg := "boom" }

/-- A second, different sample error. -/
def err2 : GoError := { msg := "second" }

/-- A tracker that has changed something and holds `someErr`. -/
def latchedSample : State :=
  { st := { Changed := true, LastError := some someErr, Logger := some { id := 0 } },
    output := [], trace := [] }

/-- A tracker that has changed something and holds no error. -/
def clearChangedSample : State :=
  { st := { Changed := true, LastError := none, Logger := some { id := 0 } },
    output := [], trace := [] }

/-- A tracker that has changed nothing, holds `someErr` and has already logged it. -/
def latchedUnchangedSample : State :=
  { st := { Changed := false, LastError := some someErr, Logger := some { id := 0 } },
    output := [{ format := "ERR: cannot upgrade [%s]: %v", v := [Arg.str "B", Arg.err someErr] }],
    trace := [] }

/-- The changed value reported by the step a call carries: what its step function
returns, or the value handed to `PushUpgradeResult`. -/
def Op.stepChanged : Op → Bool
  | Op.runUpgrade _ u r => (u r).1
  | Op.call _ f _ => (f ()).1
  | Op.pushUpgradeResult _ c _ => c

/-- Spec reading of P3, taken literally: the OR of the changed values of the steps
that come strictly before the first failing step. -/
def orBeforeFirstFailure : List Op → Bool
  | [] => false
  | op :: ops =>
    match op.stepErr with
    | some _ => false
    | none => op.stepChanged || orBeforeFirstFailure ops

/-- The OR of the changed values of the steps up to and including the first failing
step; steps after it are not looked at. -/
def orThroughFirstFailure : List Op → Bool
  | [] => false
  | op :: ops =>
    match op.stepErr with
    | some _ => op.stepChanged
    | none => op.stepChanged || orThroughFirstFailure ops

/-- The same tracker with its `Logger` field set to `logger`. -/
def withLogger (s : State) (logger : Option Logger) : State :=
  { s with st := { s.st with Logger := logger } }

/-! ## Single-call lemmas -/

theorem RunUpgrade_of_latched (s : State) (e : GoError) (h : s.st.LastError = some e)
    (n : String) (u : StructureUpgrader) (r : Int) :
    RunUpgrade s n u r = ((false, some e), s) := by
  simp [RunUpgrade, h]

theorem Call_of_latched (s : State) (e : GoError) (h : s.st.LastError = some e)
    (n : String) (f : Unit → Bool × Error) (r : Int) :
    Call s n f r = ((true, false, some e), s) := by
  simp [Call, h]

theorem PushUpgradeResult_of_latched (s : State) (e : GoError) (h : s.st.LastError = some e)
    (n : String) (c : Bool) (x : Error) :
    PushUpgradeResult s n c x = s := by
  simp [PushUpgradeResult, h]

@[simp] theorem logF_st (s : State) (format : String) (v : List Arg) :
    (logF s format v).st = s.st := by
  unfold logF; cases s.st.Logger <;> rfl

@[simp] theorem logF_trace (s : State) (format : String) (v : List Arg) :
    (logF s format v).trace = s.trace := by
  unfold logF; cases s.st.Logger <;> rfl

/-! ## Sequences of calls: helper lemmas -/

theorem exec_of_latched (s : State) (e : GoError) (h : s.st.LastError = some e) (op : Op) :
    (op.exec s).2 = s ∧ ∀ x, (op.exec s).1.err? = some x → x = some e := by
  cases op with
  | runUpgrade n u r =>
    simp [Op.exec, RunUpgrade_of_latched s e h n u r, Ret.err?]
  | call n f r =>
    simp [Op.exec, Call_of_latched s e h n f r, Ret.err?]
  | pushUpgradeResult n c x =>
    simp [Op.exec, PushUpgradeResult_of_latched s e h n c x, Ret.err?]

theorem runState_of_latched (s : State) (e : GoError) (h : s.st.LastError = some e)
    (ops : List Op) : runState s ops = s := by
  induction ops with
  | nil => rfl
  | cons op ops ih =>
    show runState (op.exec s).2 ops = s
    rw [(exec_of_latched s e h op).1]
    exact ih

theorem runRets_of_latched (s : State) (e : GoError) (h : s.st.LastError = some e)
    (ops : List Op) : ∀ r ∈ runRets s ops, ∀ x, r.err? = some x → x = some e := by
  induction ops with
  | nil => intro r hr; cases hr
  | cons op ops ih =>
    intro r hr
    have hcons : runRets s (op :: ops) = (op.exec s).1 :: runRets (op.exec s).2 ops := rfl
    rw [hcons, (exec_of_latched s e h op).1, List.mem_cons] at hr
    rcases hr with rfl | hr
    · exact (exec_of_latched s e h op).2
    · exact ih r hr

theorem runState_append (s : State) (pre post : List Op) :
    runState s (pre ++ post) = runState (runState s pre) post := by
  induction pre generalizing s with
  | nil => rfl
  | cons op pre ih => exact ih (op.exec s).2

theorem runRets_append (s : State) (pre post : List Op) :
    runRets s (pre ++ post) = runRets s pre ++ runRets (runState s pre) post := by
  induction pre generalizing s with
  | nil => rfl
  | cons op pre ih =>
    show (op.exec s).1 :: runRets (op.exec s).2 (pre ++ post)
      = (op.exec s).1 :: (runRets (op.exec s).2 pre ++ runRets (runState (op.exec s).2 pre) post)
    rw [ih]

theorem runRets_length (s : State) (ops : List Op) : (runRets s ops).length = ops.length := by
  induction ops generalizing s with
  | nil => rfl
  | cons op ops ih =>
    show (runRets (op.exec s).2 ops).length + 1 = ops.length + 1
    rw [ih]

theorem exec_clear_LastError (s : State) (h : s.st.LastError = none) (op : Op) :
    (op.exec s).2.st.LastError = op.stepErr := by
  cases op with
  | runUpgrade n u r =>
    rcases hu : u r with ⟨c, _ | e⟩ <;> cases c <;> simp [Op.exec, Op.stepErr, RunUpgrade, h, hu]
  | call n f r =>
    rcases hu : f () with ⟨c, _ | e⟩ <;> cases c <;> simp [Op.exec, Op.stepErr, Call, h, hu]
  | pushUpgradeResult n c x =>
    rcases x with _ | e <;> cases c <;> simp [Op.exec, Op.stepErr, PushUpgradeResult, h]

theorem exec_clear_Changed (s : State) (h : s.st.LastError = none) (op : Op) :
    (op.exec s).2.st.Changed = (s.st.Changed || op.stepChanged) := by
  cases op with
  | runUpgrade n u r =>
    rcases hu : u r with ⟨c, _ | e⟩ <;> cases c <;>
      simp [Op.exec, Op.stepChanged, RunUpgrade, h, hu]
  | call n f r =>
    rcases hu : f () with ⟨c, _ | e⟩ <;> cases c <;>
      simp [Op.exec, Op.stepChanged, Call, h, hu]
  | pushUpgradeResult n c x =>
    rcases x with _ | e <;> cases c <;> simp [Op.exec, Op.stepChanged, PushUpgradeResult, h]

theorem runState_clear_Changed (s : State) (h : s.st.LastError = none) (ops : List Op) :
    (runState s ops).st.Changed = (s.st.Changed || orThroughFirstFailure ops) := by
  induction ops generalizing s with
  | nil => simp [runState, run, orThroughFirstFailure]
  | cons op ops ih =>
    have hstep : runState s (op :: ops) = runState (op.exec s).2 ops := rfl
    have hE := exec_clear_LastError s h op
    have hC := exec_clear_Changed s h op
    rcases hop : op.stepErr with _ | e
    · rw [hop] at hE
      rw [hstep, ih (op.exec s).2 hE, hC]
      simp [orThroughFirstFailure, hop, Bool.or_assoc]
    · rw [hop] at hE
      rw [hstep, runState_of_latched (op.exec s).2 e hE ops, hC]
      simp [orThroughFirstFailure, hop]

theorem exec_output (s : State) (op : Op) :
    (op.exec s).2.output = s.output ∨
      (op.stepErr ≠ none ∧ s.st.LastError = none ∧
        ∃ rec : LogRecord, (op.exec s).2.output = s.output ++ [rec]) := by
  rcases hl : s.st.LastError with _ | e0
  · cases op with
    | runUpgrade n u r =>
      rcases hu : u r with ⟨c, _ | e⟩ <;> cases c <;> rcases hg : s.st.Logger with _ | l <;>
        simp [Op.exec, Op.stepErr, RunUpgrade, hl, hu, logF, hg]
    | call n f r =>
      rcases hu : f () with ⟨c, _ | e⟩ <;> cases c <;> rcases hg : s.st.Logger with _ | l <;>
        simp [Op.exec, Op.stepErr, Call, hl, hu, logF, hg]
    | pushUpgradeResult n c x =>
      rcases x with _ | e <;> cases c <;> rcases hg : s.st.Logger with _ | l <;>
        simp [Op.exec, Op.stepErr, PushUpgradeResult, hl, logF, hg]
  · left
    rw [(exec_of_latched s e0 hl op).1]

/-! ## Behaviour of a single call -/

/-- C1: on a tracker whose `LastError` is non-empty, `RunUpgrade` returns
`(false, LastError)`, makes no step-function invocation (the trace is unchanged and
the outcome is the same whatever upgrader is supplied), and leaves the whole state,
in particular `Changed` and `LastError`, exactly as it was. -/
theorem RunUpgrade_latched (s : State) (e : GoError) (h : s.st.LastError = some e)
    (structureName : String) (upgrader : StructureUpgrader) (existedRev : Int) :
    (RunUpgrade s structureName upgrader existedRev).1 = (false, some e) ∧
    (RunUpgrade s structureName upgrader existedRev).2.trace = s.trace ∧
    (∀ other : StructureUpgrader,
      RunUpgrade s structureName other existedRev
        = RunUpgrade s structureName upgrader existedRev) ∧
    (RunUpgrade s structureName upgrader existedRev).2.st.Changed = s.st.Changed ∧
    (RunUpgrade s structureName upgrader existedRev).2.st.LastError = s.st.LastError ∧
    (RunUpgrade s structureName upgrader existedRev).2 = s := by
  have hu := RunUpgrade_of_latched s e h structureName upgrader existedRev
  refine ⟨by rw [hu], by rw [hu], ?_, by rw [hu], by rw [hu], by rw [hu]⟩
  intro other
  rw [hu, RunUpgrade_of_latched s e h structureName other existedRev]

/-- Witness for C1: the tracker has `Changed = true` and holds `someErr`, and the
upgrader would have returned `(true, nil)`. -/
theorem RunUpgrade_latched_witness :
    latchedSample.st.Changed = true ∧
    (fun _ => (true, none) : StructureUpgrader) 2 = (true, none) ∧
    ((RunUpgrade latchedSample "C" (fun _ => (true, none)) 2).1 = (false, some someErr) ∧
    (RunUpgrade latchedSample "C" (fun _ => (true, none)) 2).2.trace = latchedSample.trace ∧
    (∀ other : StructureUpgrader,
      RunUpgrade latchedSample "C" other 2
        = RunUpgrade latchedSample "C" (fun _ => (true, none)) 2) ∧
    (RunUpgrade latchedSample "C" (fun _ => (true, none)) 2).2.st.Changed
      = latchedSample.st.Changed ∧
    (RunUpgrade latchedSample "C" (fun _ => (true, none)) 2).2.st.LastError
      = latchedSample.st.LastError ∧
    (RunUpgrade latchedSample "C" (fun _ => (true, none)) 2).2 = latchedSample) :=
  ⟨rfl, rfl, RunUpgrade_latched latchedSample someErr rfl "C" (fun _ => (true, none)) 2⟩

/-- C2: on a tracker whose `LastError` is non-empty, `Call` returns
`(shouldStop, changed, err) = (true, false, LastError)`, makes no step-function
invocation (the trace is unchanged and the outcome is the same whatever `fnRef` is
supplied), and leaves `Changed` and `LastError` unchanged. -/
theorem Call_latched (s : State) (e : GoError) (h : s.st.LastError = some e)
    (structureName : String) (fnRef : Unit → Bool × Error) (existedRev : Int) :
    (Call s structureName fnRef existedRev).1 = (true, false, some e) ∧
    (Call s structureName fnRef existedRev).2.trace = s.trace ∧
    (∀ other : Unit → Bool × Error,
      Call s structureName other existedRev = Call s structureName fnRef existedRev) ∧
    (Call s structureName fnRef existedRev).2.st.Changed = s.st.Changed ∧
    (Call s structureName fnRef existedRev).2.st.LastError = s.st.LastError ∧
    (Call s structureName fnRef existedRev).2 = s := by
  have hu := Call_of_latched s e h structureName fnRef existedRev
  refine ⟨by rw [hu], by rw [hu], ?_, by rw [hu], by rw [hu], by rw [hu]⟩
  intro other
  rw [hu, Call_of_latched s e h structureName other existedRev]

/-- Witness for C2 on a tracker holding `someErr`. -/
theorem Call_latched_witness :
    latchedSample.st.LastError = some someErr ∧
    ((Call latchedSample "X" (fun _ => (true, some err2)) 5).1 = (true, false, some someErr) ∧
    (Call latchedSample "X" (fun _ => (true, some err2)) 5).2.trace = latchedSample.trace ∧
    (∀ other : Unit → Bool × Error,
      Call latchedSample "X" other 5 = Call latchedSample "X" (fun _ => (true, some err2)) 5) ∧
    (Call latchedSample "X" (fun _ => (true, some err2)) 5).2.st.Changed
      = latchedSample.st.Changed ∧
    (Call latchedSample "X" (fun _ => (true, some err2)) 5).2.st.LastError
      = latchedSample.st.LastError ∧
    (Call latchedSample "X" (fun _ => (true, some err2)) 5).2 = latchedSample) :=
  ⟨rfl, Call_latched latchedSample someErr rfl "X" (fun _ => (true, some err2)) 5⟩

/-- C3: on a tracker whose `LastError` is non-empty, `PushUpgradeResult` with any
name, any changed value and any error changes nothing: `Changed`, `LastError` and
the log output (indeed the whole state) stay as they were. -/
theorem PushUpgradeResult_latched (s : State) (e : GoError) (h : s.st.LastError = some e)
    (structureName : String) (structureChanged : Bool) (err : Error) :
    (PushUpgradeResult s structureName structureChanged err).st.Changed = s.st.Changed ∧
    (PushUpgradeResult s structureName structureChanged err).st.LastError = s.st.LastError ∧
    (PushUpgradeResult s structureName structureChanged err).output = s.output ∧
    PushUpgradeResult s structureName structureChanged err = s := by
  have hu := PushUpgradeResult_of_latched s e h structureName structureChanged err
  exact ⟨by rw [hu], by rw [hu], by rw [hu], hu⟩

/-- Witness for C3: the tracker has `Changed = false` and holds `someErr`; `true` and
a different error are pushed. -/
theorem PushUpgradeResult_latched_witness :
    latchedUnchangedSample.st.Changed = false ∧ some err2 ≠ some someErr ∧
    ((PushUpgradeResult latchedUnchangedSample "Z" true (some err2)).st.Changed
      = latchedUnchangedSample.st.Changed ∧
    (PushUpgradeResult latchedUnchangedSample "Z" true (some err2)).st.LastError
      = latchedUnchangedSample.st.LastError ∧
    (PushUpgradeResult latchedUnchangedSample "Z" true (some err2)).output
      = latchedUnchangedSample.output ∧
    PushUpgradeResult latchedUnchangedSample "Z" true (some err2) = latchedUnchangedSample) :=
  ⟨rfl, by decide,
    PushUpgradeResult_latched latchedUnchangedSample someErr rfl "Z" true (some err2)⟩

/-- C4: on a tracker with no error recorded, `RunUpgrade` returns exactly the pair
the upgrader produced for `existedRev` (the step's own result, not the tracker's
aggregate) and invokes the upgrader exactly once with that revision. -/
theorem RunUpgrade_clear_returns_step (s : State) (h : s.st.LastError = none)
    (structureName : String) (upgrader : StructureUpgrader) (existedRev : Int) :
    (RunUpgrade s structureName upgrader existedRev).1 = upgrader existedRev ∧
    (RunUpgrade s structureName upgrader existedRev).2.trace
      = s.trace ++ [Invocation.upgrader existedRev] := by
  rcases hu : upgrader existedRev with ⟨c, _ | e⟩ <;> cases c <;>
    simp [RunUpgrade, h, hu]

/-- Witness for C4: `Changed` is already true and the step returns `(false, nil)`;
`RunUpgrade` returns `(false, nil)`. -/
theorem RunUpgrade_clear_returns_step_witness :
    clearChangedSample.st.Changed = true ∧
    (RunUpgrade clearChangedSample "A" (fun _ => (false, none)) 1).1 = (false, none) ∧
    (RunUpgrade clearChangedSample "A" (fun _ => (false, none)) 1).2.trace
      = clearChangedSample.trace ++ [Invocation.upgrader 1] :=
  ⟨rfl, RunUpgrade_clear_returns_step clearChangedSample rfl "A" (fun _ => (false, none)) 1⟩

/-- C5: on a tracker with no error recorded, after `RunUpgrade` the tracker's
`LastError` is the error the upgrader returned (still nil when that is nil) and
`Changed` is the previous `Changed` OR the step's changed value; both updates happen
in the same call when the step returns `true` together with an error. -/
theorem RunUpgrade_clear_state (s : State) (h : s.st.LastError = none)
    (structureName : String) (upgrader : StructureUpgrader) (existedRev : Int) :
    (RunUpgrade s structureName upgrader existedRev).2.st.LastError
      = (upgrader existedRev).2 ∧
    (RunUpgrade s structureName upgrader existedRev).2.st.Changed
      = (s.st.Changed || (upgrader existedRev).1) := by
  rcases hu : upgrader existedRev with ⟨c, _ | e⟩ <;> cases c <;>
    simp [RunUpgrade, h, hu]

/-- Witness for C5: a fresh tracker and a step returning `(true, someErr)`. -/
theorem RunUpgrade_clear_state_witness :
    (RunUpgrade (fresh none) "B" (fun _ => (true, some someErr)) 1).2.st.LastError
      = some someErr ∧
    (RunUpgrade (fresh none) "B" (fun _ => (true, some someErr)) 1).2.st.Changed
      = ((fresh none).st.Changed || true) :=
  RunUpgrade_clear_state (fresh none) rfl "B" (fun _ => (true, some someErr)) 1

/-- C6: the `shouldStop` value returned by `Call` is true if and only if the tracker
already held an error before the call or the step function was invoked and returned
an error; equivalently, exactly when the returned `err` is non-nil. -/
theorem Call_shouldStop_iff (s : State) (structureName : String)
    (fnRef : Unit → Bool × Error) (existedRev : Int) :
    ((Call s structureName fnRef existedRev).1.1 = true ↔
      (s.st.LastError ≠ none ∨
        ((Call s structureName fnRef existedRev).2.trace = s.trace ++ [Invocation.fnRef] ∧
          (fnRef ()).2 ≠ none))) ∧
    ((Call s structureName fnRef existedRev).1.1 = true ↔
      (Call s structureName fnRef existedRev).1.2.2 ≠ none) := by
  rcases hl : s.st.LastError with _ | e0
  · rcases hu : fnRef () with ⟨c, _ | e⟩ <;> cases c <;> simp [Call, hl, hu]
  · simp [Call, hl]

/-- C7: on a tracker with no error recorded, after `PushUpgradeResult(name, c, e)` the
tracker's `LastError` is `e` (still nil when `e` is nil) and `Changed` is the previous
`Changed` OR `c`. -/
theorem PushUpgradeResult_clear_state (s : State) (h : s.st.LastError = none)
    (structureName : String) (structureChanged : Bool) (err : Error) :
    (PushUpgradeResult s structureName structureChanged err).st.LastError = err ∧
    (PushUpgradeResult s structureName structureChanged err).st.Changed
      = (s.st.Changed || structureChanged) := by
  rcases err with _ | e <;> cases structureChanged <;> simp [PushUpgradeResult, h]

/-- Witness for C7: from a fresh tracker, `(true, nil)` is pushed and then
`(true, err2)`; the tracker ends with `Changed = true` and `LastError = err2`. -/
theorem PushUpgradeResult_clear_state_witness :
    (PushUpgradeResult (fresh none) "Y" true none).st = ⟨true, none, none⟩ ∧
    ((PushUpgradeResult (PushUpgradeResult (fresh none) "Y" true none)
        "Z" true (some err2)).st.LastError = some err2 ∧
    (PushUpgradeResult (PushUpgradeResult (fresh none) "Y" true none)
        "Z" true (some err2)).st.Changed
      = ((PushUpgradeResult (fresh none) "Y" true none).st.Changed || true)) :=
  ⟨rfl, PushUpgradeResult_clear_state (PushUpgradeResult (fresh none) "Y" true none) rfl
    "Z" true (some err2)⟩

/-! ## Behaviour of sequences of calls -/

/-- C8: `LastError` is first-write-wins and terminal.  For every tracker and every
sequence of `RunUpgrade`, `Call` and `PushUpgradeResult` calls, if `LastError` holds
`e` after some prefix of the sequence then it holds that same `e` after every
extension of the prefix: it is never overwritten and never cleared. -/
theorem LastError_terminal (s : State) (pre post : List Op) (e : GoError)
    (h : (runState s pre).st.LastError = some e) :
    (runState s (pre ++ post)).st.LastError = some e := by
  rw [runState_append, runState_of_latched (runState s pre) e h post]
  exact h

/-- Witness for C8: the first call fails with `someErr`; later calls that would fail
with `err2`, or push `err2`, or succeed, leave `someErr` in place. -/
theorem LastError_terminal_witness :
    (runState (fresh none)
      ([Op.runUpgrade "B" (fun _ => (false, some someErr)) 1] ++
        [Op.runUpgrade "C" (fun _ => (true, some err2)) 2,
         Op.pushUpgradeResult "Z" true (some err2),
         Op.call "X" (fun _ => (true, none)) 3])).st.LastError = some someErr :=
  LastError_terminal (fresh none) [Op.runUpgrade "B" (fun _ => (false, some someErr)) 1]
    [Op.runUpgrade "C" (fun _ => (true, some err2)) 2,
     Op.pushUpgradeResult "Z" true (some err2),
     Op.call "X" (fun _ => (true, none)) 3] someErr rfl

/-- C9: for every sequence of calls, once `LastError` is non-empty after some prefix,
no step function supplied to a later `RunUpgrade` or `Call` is invoked: the trace of
step invocations after any extension of the prefix is the trace after the prefix. -/
theorem no_invocation_after_latch (s : State) (pre post : List Op) (e : GoError)
    (h : (runState s pre).st.LastError = some e) :
    (runState s (pre ++ post)).trace = (runState s pre).trace := by
  rw [runState_append, runState_of_latched (runState s pre) e h post]

/-- Witness for C9: one step runs and fails; the two steps attempted afterwards leave
the trace with its single entry. -/
theorem no_invocation_after_latch_witness :
    (runState (fresh none) [Op.call "X" (fun _ => (false, some someErr)) 5]).trace
      = [Invocation.fnRef] ∧
    (runState (fresh none)
      ([Op.call "X" (fun _ => (false, some someErr)) 5] ++
        [Op.runUpgrade "C" (fun _ => (true, none)) 2,
         Op.call "D" (fun _ => (true, none)) 3])).trace
      = (runState (fresh none) [Op.call "X" (fun _ => (false, some someErr)) 5]).trace :=
  ⟨rfl, no_invocation_after_latch (fresh none) [Op.call "X" (fun _ => (false, some someErr)) 5]
    [Op.runUpgrade "C" (fun _ => (true, none)) 2,
     Op.call "D" (fun _ => (true, none)) 3] someErr rfl⟩

/-- C10: starting from a fresh tracker, let `op` be the first failing call, that is
`LastError` is nil after `pre` and holds `e` after `pre ++ [op]`, whichever of the
three methods `op` is.  Then `e` is the error of the step `op` carried, and every
`RunUpgrade` or `Call` made after `op` returns exactly `e` as its error, whatever
step function it was given. -/
theorem returned_error_is_first_failure (logger : Option Logger) (pre : List Op) (op : Op)
    (post : List Op) (e : GoError)
    (hclear : (runState (fresh logger) pre).st.LastError = none)
    (hfail : (runState (fresh logger) (pre ++ [op])).st.LastError = some e) :
    op.stepErr = some e ∧
    ∀ r ∈ (runRets (fresh logger) (pre ++ op :: post)).drop (pre.length + 1),
      ∀ x, r.err? = some x → x = some e := by
  constructor
  · have hop : runState (fresh logger) (pre ++ [op])
        = (op.exec (runState (fresh logger) pre)).2 := by
      rw [runState_append]; rfl
    rw [← exec_clear_LastError (runState (fresh logger) pre) hclear op, ← hop]
    exact hfail
  · have hsplit : pre ++ op :: post = (pre ++ [op]) ++ post := by simp
    have hlen : (runRets (fresh logger) (pre ++ [op])).length = pre.length + 1 := by
      rw [runRets_length]; simp
    rw [hsplit, runRets_append, ← hlen, List.drop_left]
    exact runRets_of_latched _ e hfail post

/-- Witness for C10: a successful step, then a failure recorded through
`PushUpgradeResult`, then a `RunUpgrade` and a `Call` whose steps would not fail
with that error. -/
theorem returned_error_is_first_failure_witness :
    (runRets (fresh none)
      ([Op.runUpgrade "A" (fun _ => (true, none)) 1] ++
        Op.pushUpgradeResult "Z" false (some someErr) ::
        [Op.runUpgrade "C" (fun _ => (true, none)) 2,
         Op.call "D" (fun _ => (true, some err2)) 3])).drop
        ([Op.runUpgrade "A" (fun _ => (true, none)) 1].length + 1)
      = [Ret.runUpgrade false (some someErr), Ret.call true false (some someErr)] ∧
    ((Op.pushUpgradeResult "Z" false (some someErr)).stepErr = some someErr ∧
    ∀ r ∈ (runRets (fresh none)
      ([Op.runUpgrade "A" (fun _ => (true, none)) 1] ++
        Op.pushUpgradeResult "Z" false (some someErr) ::
        [Op.runUpgrade "C" (fun _ => (true, none)) 2,
         Op.call "D" (fun _ => (true, some err2)) 3])).drop
        ([Op.runUpgrade "A" (fun _ => (true, none)) 1].length + 1),
      ∀ x, r.err? = some x → x = some someErr) :=
  ⟨rfl, returned_error_is_first_failure none [Op.runUpgrade "A" (fun _ => (true, none)) 1]
    (Op.pushUpgradeResult "Z" false (some someErr))
    [Op.runUpgrade "C" (fun _ => (true, none)) 2,
     Op.call "D" (fun _ => (true, some err2)) 3] someErr rfl rfl⟩

/-- C11, as stated, fails: a fresh tracker runs one step that reports `changed = true`
together with an error.  No step precedes the first failure, so the OR over the steps
before it is false, yet the tracker's `Changed` is true. -/
theorem changed_not_or_before_first_failure :
    (runState (fresh none) [Op.runUpgrade "A" (fun _ => (true, some someErr)) 1]).st.Changed
      = true ∧
    orBeforeFirstFailure [Op.runUpgrade "A" (fun _ => (true, some someErr)) 1] = false ∧
    ¬ (∀ (logger : Option Logger) (ops : List Op),
        (runState (fresh logger) ops).st.Changed = orBeforeFirstFailure ops) := by
  refine ⟨rfl, rfl, ?_⟩
  intro hall
  have h := hall none [Op.runUpgrade "A" (fun _ => (true, some someErr)) 1]
  exact absurd h (by decide)

/-- C11, amended: for every sequence of steps run through a fresh tracker by any of the
three methods, the final `Changed` flag is the OR of the changed values of the steps
up to and including the first failing step; steps attempted after it contribute
nothing. -/
theorem changed_is_or_through_first_failure (logger : Option Logger) (ops : List Op) :
    (runState (fresh logger) ops).st.Changed = orThroughFirstFailure ops := by
  rw [runState_clear_Changed (fresh logger) rfl ops]
  simp [fresh]

/-- C12: `Changed` is monotonic.  On a tracker whose `Changed` flag is true, after any
single `RunUpgrade`, `Call` or `PushUpgradeResult`, with any arguments and whether or not
an error is already recorded, `Changed` is still true. -/
theorem Changed_monotonic (s : State) (h : s.st.Changed = true) (op : Op) :
    (op.exec s).2.st.Changed = true := by
  rcases hl : s.st.LastError with _ | e
  · rw [exec_clear_Changed s hl op, h]; rfl
  · rw [(exec_of_latched s e hl op).1]; exact h

/-- Witness for C12: a clear tracker with `Changed = true` runs a step that reports
`(false, someErr)`. -/
theorem Changed_monotonic_witness :
    (Op.runUpgrade "B" (fun _ => (false, some someErr)) 1).stepChanged = false ∧
    ((Op.runUpgrade "B" (fun _ => (false, some someErr)) 1).exec clearChangedSample).2.st.Changed
      = true :=
  ⟨rfl, Changed_monotonic clearChangedSample rfl (Op.runUpgrade "B" (fun _ => (false, some someErr)) 1)⟩

/-! ## Calling conventions, logging and the logger as observer -/

/-- C13: `RunUpgrade` and `Call` agree up to calling convention.  For every tracker
state, name, upgrader `f` and revision `r`, `Call(name, fun () => f r, r)` returns the
same `(changed, err)` as `RunUpgrade(name, f, r)`, leaves the tracker with the same
`Changed` and `LastError` (the same fields altogether) and emits the same log output. -/
theorem Call_eq_RunUpgrade (s : State) (structureName : String) (f : StructureUpgrader)
    (r : Int) :
    (Call s structureName (fun _ => f r) r).1.2 = (RunUpgrade s structureName f r).1 ∧
    (Call s structureName (fun _ => f r) r).2.st.Changed
      = (RunUpgrade s structureName f r).2.st.Changed ∧
    (Call s structureName (fun _ => f r) r).2.st.LastError
      = (RunUpgrade s structureName f r).2.st.LastError ∧
    (Call s structureName (fun _ => f r) r).2.st = (RunUpgrade s structureName f r).2.st ∧
    (Call s structureName (fun _ => f r) r).2.output
      = (RunUpgrade s structureName f r).2.output := by
  rcases hl : s.st.LastError with _ | e0
  · rcases hu : f r with ⟨c, _ | e⟩ <;> cases c <;> simp [Call, RunUpgrade, hl, hu, logF] <;>
      cases s.st.Logger <;> simp
  · simp [Call, RunUpgrade, hl]

/-- C14: with a logger present and no error recorded, each of the three methods that
meets a non-nil error appends exactly one record to the log output: `RunUpgrade` and
`Call` the format `"ERR: cannot upgrade [%s] from [%d]: %v"` with arguments
(name, revision, error), `PushUpgradeResult` the format
`"ERR: cannot upgrade [%s]: %v"` with arguments (name, error) and no revision. -/
theorem error_logged_once (s : State) (l : Logger) (hlog : s.st.Logger = some l)
    (hclear : s.st.LastError = none) (structureName : String) (existedRev : Int)
    (e : GoError) (upgrader : StructureUpgrader) (fnRef : Unit → Bool × Error)
    (structureChanged : Bool)
    (hu : (upgrader existedRev).2 = some e) (hf : (fnRef ()).2 = some e) :
    (RunUpgrade s structureName upgrader existedRev).2.output
      = s.output ++ [{ format := "ERR: cannot upgrade [%s] from [%d]: %v",
                       v := [Arg.str structureName, Arg.int existedRev, Arg.err e] }] ∧
    (Call s structureName fnRef existedRev).2.output
      = s.output ++ [{ format := "ERR: cannot upgrade [%s] from [%d]: %v",
                       v := [Arg.str structureName, Arg.int existedRev, Arg.err e] }] ∧
    (PushUpgradeResult s structureName structureChanged (some e)).output
      = s.output ++ [{ format := "ERR: cannot upgrade [%s]: %v",
                       v := [Arg.str structureName, Arg.err e] }] := by
  refine ⟨?_, ?_, ?_⟩
  · rcases hx : upgrader existedRev with ⟨c, x⟩
    rw [hx] at hu
    simp only at hu
    subst hu
    cases c <;> simp [RunUpgrade, hclear, hx, logF, hlog]
  · rcases hx : fnRef () with ⟨c, x⟩
    rw [hx] at hf
    simp only at hf
    subst hf
    cases c <;> simp [Call, hclear, hx, logF, hlog]
  · cases structureChanged <;> simp [PushUpgradeResult, hclear, logF, hlog]

/-- Witness for C14: a fresh tracker with a logger, and steps failing with `someErr`
at revision 1 for the structure named "B". -/
theorem error_logged_once_witness :
    (RunUpgrade (fresh (some { id := 7 })) "B" (fun _ => (false, some someErr)) 1).2.output
      = (fresh (some { id := 7 })).output ++
          [{ format := "ERR: cannot upgrade [%s] from [%d]: %v",
             v := [Arg.str "B", Arg.int 1, Arg.err someErr] }] ∧
    (Call (fresh (some { id := 7 })) "B" (fun _ => (true, some someErr)) 1).2.output
      = (fresh (some { id := 7 })).output ++
          [{ format := "ERR: cannot upgrade [%s] from [%d]: %v",
             v := [Arg.str "B", Arg.int 1, Arg.err someErr] }] ∧
    (PushUpgradeResult (fresh (some { id := 7 })) "B" true (some someErr)).output
      = (fresh (some { id := 7 })).output ++
          [{ format := "ERR: cannot upgrade [%s]: %v",
             v := [Arg.str "B", Arg.err someErr] }] :=
  error_logged_once (fresh (some { id := 7 })) { id := 7 } rfl rfl "B" 1 someErr
    (fun _ => (false, some someErr)) (fun _ => (true, some someErr)) true rfl rfl

/-- C15: a successful step is never logged.  For every tracker state and every
`RunUpgrade`, `Call` or `PushUpgradeResult` whose step result carries a nil error, the
log output is unchanged; and in every case a single call either leaves the log
output unchanged or appends exactly one record, the latter only for a failing step. -/
theorem no_log_on_success (s : State) (op : Op) :
    (op.stepErr = none → (op.exec s).2.output = s.output) ∧
    ((op.exec s).2.output = s.output ∨
      (op.stepErr ≠ none ∧ ∃ rec : LogRecord, (op.exec s).2.output = s.output ++ [rec])) := by
  constructor
  · intro hnone
    rcases exec_output s op with h | ⟨hne, _, _⟩
    · exact h
    · exact absurd hnone hne
  · rcases exec_output s op with h | ⟨hne, _, hrec⟩
    · exact Or.inl h
    · exact Or.inr ⟨hne, hrec⟩

/-- Witness for C15: a tracker with a logger runs a step returning `(true, nil)`; the
log output stays empty. -/
theorem no_log_on_success_witness :
    ((Op.call "A" (fun _ => (true, none)) 1).exec (fresh (some { id := 7 }))).2.output = [] :=
  (no_log_on_success (fresh (some { id := 7 })) (Op.call "A" (fun _ => (true, none)) 1)).1 rfl

/-- C16: the logger is a pure observer.  With the `Logger` field nil a call emits
nothing; the value returned and the resulting `Changed` and `LastError` are the same
whether the `Logger` field is nil or set; and no call changes the `Logger` field. -/
theorem logger_is_observer (s : State) (op : Op) (l : Logger) :
    (op.exec (withLogger s none)).2.output = s.output ∧
    (op.exec (withLogger s (some l))).1 = (op.exec (withLogger s none)).1 ∧
    (op.exec (withLogger s (some l))).2.st.Changed
      = (op.exec (withLogger s none)).2.st.Changed ∧
    (op.exec (withLogger s (some l))).2.st.LastError
      = (op.exec (withLogger s none)).2.st.LastError ∧
    (op.exec s).2.st.Logger = s.st.Logger := by
  rcases s with ⟨⟨ch, le, lg⟩, out, tr⟩
  cases op with
  | runUpgrade n u r =>
    rcases le with _ | e0
    · rcases hu : u r with ⟨c, _ | e⟩ <;> cases c <;>
        cases lg <;> simp [Op.exec, RunUpgrade, withLogger, hu, logF]
    · simp [Op.exec, RunUpgrade, withLogger]
  | call n f r =>
    rcases le with _ | e0
    · rcases hu : f () with ⟨c, _ | e⟩ <;> cases c <;>
        cases lg <;> simp [Op.exec, Call, withLogger, hu, logF]
    · simp [Op.exec, Call, withLogger]
  | pushUpgradeResult n c x =>
    rcases le with _ | e0
    · rcases x with _ | e <;> cases c <;> cases lg <;>
        simp [Op.exec, PushUpgradeResult, withLogger, logF]
    · simp [Op.exec, PushUpgradeResult, withLogger]

/-- C17: for every tracker state and every `RunUpgrade` or `Call`, the returned `err`
is the tracker's `LastError` after the call; in particular the returned `err` is
non-nil if and only if `LastError` is non-nil afterwards. -/
theorem returned_err_is_LastError (s : State) (structureName : String)
    (upgrader : StructureUpgrader) (fnRef : Unit → Bool × Error) (existedRev : Int) :
    ((RunUpgrade s structureName upgrader existedRev).1.2 ≠ none ↔
      (RunUpgrade s structureName upgrader existedRev).2.st.LastError ≠ none) ∧
    (RunUpgrade s structureName upgrader existedRev).1.2
      = (RunUpgrade s structureName upgrader existedRev).2.st.LastError ∧
    ((Call s structureName fnRef existedRev).1.2.2 ≠ none ↔
      (Call s structureName fnRef existedRev).2.st.LastError ≠ none) ∧
    (Call s structureName fnRef existedRev).1.2.2
      = (Call s structureName fnRef existedRev).2.st.LastError := by
  have hr : (RunUpgrade s structureName upgrader existedRev).1.2
      = (RunUpgrade s structureName upgrader existedRev).2.st.LastError := by
    rcases hl : s.st.LastError with _ | e0
    · rcases hu : upgrader existedRev with ⟨c, _ | e⟩ <;> cases c <;>
        simp [RunUpgrade, hl, hu]
    · simp [RunUpgrade, hl]
  have hc : (Call s structureName fnRef existedRev).1.2.2
      = (Call s structureName fnRef existedRev).2.st.LastError := by
    rcases hl : s.st.LastError with _ | e0
    · rcases hu : fnRef () with ⟨c, _ | e⟩ <;> cases c <;> simp [Call, hl, hu]
    · simp [Call, hl]
  exact ⟨by rw [hr], hr, by rw [hc], hc⟩

/-- C18: recording a result is idempotent on the tracker.  `PushUpgradeResult` applied
twice with the same arguments leaves the same `Changed` and `LastError` (the same
tracker fields) as applying it once, and so does `RunUpgrade` run twice with the same
upgrader; the second `RunUpgrade` may still return a different changed value, as on a
fresh tracker with a step returning `(true, someErr)`: first `true`, then `false`. -/
theorem record_idempotent (s : State) (structureName : String) (structureChanged : Bool)
    (err : Error) (upgrader : StructureUpgrader) (existedRev : Int) :
    (PushUpgradeResult (PushUpgradeResult s structureName structureChanged err)
        structureName structureChanged err).st
      = (PushUpgradeResult s structureName structureChanged err).st ∧
    (RunUpgrade (RunUpgrade s structureName upgrader existedRev).2
        structureName upgrader existedRev).2.st
      = (RunUpgrade s structureName upgrader existedRev).2.st ∧
    ((RunUpgrade (fresh none) "B" (fun _ => (true, some someErr)) 1).1 = (true, some someErr) ∧
      (RunUpgrade (RunUpgrade (fresh none) "B" (fun _ => (true, some someErr)) 1).2
        "B" (fun _ => (true, some someErr)) 1).1 = (false, some someErr)) := by
  refine ⟨?_, ?_, rfl, rfl⟩
  · rcases hl : s.st.LastError with _ | e0
    · rcases err with _ | e <;> cases structureChanged <;>
        simp [PushUpgradeResult, hl]
    · simp [PushUpgradeResult, hl]
  · rcases hl : s.st.LastError with _ | e0
    · rcases hu : upgrader existedRev with ⟨c, _ | e⟩ <;> cases c <;>
        simp [RunUpgrade, hl, hu]
    · simp [RunUpgrade, hl]

end structureupgradestatus
